import Mathlib

/-!
Verification development for the Vision Assist orchestration core.

The definitions below are shallow embeddings, translated directly from the
TypeScript sources of the repository:

  - namespace SpeechM  : SpeechService  (services/SpeechService.ts)
  - namespace LocM     : LocationService pure utilities (services/LocationService.ts)
  - namespace NavM     : NavigationService (services/NavigationService.ts)
  - namespace DetM     : ObjectDetectionService (services/ObjectDetectionService.ts)

JavaScript numeric primitives used by the sources are modelled exactly:
Math.round is round-half-up (floor of x + 1/2), and the JS remainder
operator truncates toward zero (sign of the dividend).
-/

/-- JS Math.round: rounds half toward positive infinity, so it equals
the floor of q + 1/2 (Math.round (-0.5) = 0 = floor 0). -/
def jsRound (q : ℚ) : ℤ := ⌊q + 1/2⌋

namespace SpeechM

/-!
SpeechService (translated from services/SpeechService.ts).

Utterances are identified by natural numbers.  The mutable fields of the
TypeScript class become the fields of SState.  The external TTS device is
modelled by the field speaking: the list of utterances the device is
currently vocalizing (Speech.speak adds one; the device firing the merged
onDone or onError handler removes it).  Per the collaborator contract,
Speech.stop() halts the device without firing onDone or onError, so a
completion event can only occur while some utterance is actually speaking.
The callbacks field records, in order, the utterances whose user-supplied
completion callback (onDone or onError) has fired.
-/

structure SState where
  queue : List ℕ
  isProcessingQueue : Bool
  isSpeaking : Bool
  speaking : List ℕ
  callbacks : List ℕ
deriving DecidableEq, Repr

/-- Translation of SpeechService.processQueue: if the queue is empty, clear
the processing flag and return; otherwise shift the head utterance, mark
processing and speaking, and hand the utterance to the TTS device (its
completion handlers are modelled by the done event below). -/
def processQueue (s : SState) : SState :=
  match s.queue with
  | [] => { s with isProcessingQueue := false }
  | u :: rest =>
      { s with queue := rest, isProcessingQueue := true,
               isSpeaking := true, speaking := s.speaking ++ [u] }

/-- Translation of SpeechService.speak: push onto the queue, then start
processQueue only when not already processing. -/
def speak (u : ℕ) (s : SState) : SState :=
  let s1 := { s with queue := s.queue ++ [u] }
  if s1.isProcessingQueue then s1 else processQueue s1

/-- The TTS device completes the current utterance (success or failure):
the merged onDone/onError handler clears isSpeaking, fires the caller
callback, and invokes processQueue to start the next queued utterance.
When nothing is being vocalized no completion event can fire. -/
def completeCurrent (s : SState) : SState :=
  match s.speaking with
  | [] => s
  | u :: rest =>
      processQueue { s with isSpeaking := false, speaking := rest,
                            callbacks := s.callbacks ++ [u] }

/-- Translation of SpeechService.stop: halt the device (Speech.stop, which
fires no completion handler), clear isSpeaking and the queue.  Note the
source does not reset isProcessingQueue. -/
def stop (s : SState) : SState :=
  { s with queue := [], isSpeaking := false, speaking := [] }

/-- External events driving the speech queue. -/
inductive Ev where
  | enq (u : ℕ)
  | done
  | stopEv
deriving DecidableEq, Repr

def stepEv (s : SState) : Ev → SState
  | .enq u => speak u s
  | .done => completeCurrent s
  | .stopEv => stop s

def run (s : SState) : List Ev → SState
  | [] => s
  | e :: es => run (stepEv s e) es

/-- All states visited while running an event list, initial state included. -/
def trace (s : SState) : List Ev → List SState
  | [] => [s]
  | e :: es => s :: trace (stepEv s e) es

/-- The idle state of the singleton SpeechService. -/
def idleS : SState := ⟨[], false, false, [], []⟩

/-- State invariant: the device vocalizes at most one utterance, and when
the processing flag is down nothing is being vocalized. -/
def Inv (s : SState) : Prop :=
  s.speaking.length ≤ 1 ∧ (s.isProcessingQueue = false → s.speaking = [])

theorem inv_idle : Inv idleS := by
  constructor <;> simp [idleS]

theorem inv_step (s : SState) (e : Ev) (h : Inv s) : Inv (stepEv s e) := by
  obtain ⟨h1, h2⟩ := h
  cases e with
  | enq u =>
      simp only [stepEv, speak]
      by_cases hp : s.isProcessingQueue
      · simp [hp, Inv, h1]
      · have hsp : s.speaking = [] := h2 (by simpa using hp)
        simp only [hp]
        simp only [Bool.false_eq_true, if_false]
        cases hq : s.queue with
        | nil => simp [processQueue, hq, Inv, hsp]
        | cons v rest => simp [processQueue, hq, Inv, hsp]
  | done =>
      simp only [stepEv, completeCurrent]
      cases hsp : s.speaking with
      | nil => exact ⟨h1, h2⟩
      | cons u rest =>
          have hrest : rest = [] := by
            have := h1
            rw [hsp] at this
            simpa using this
          subst hrest
          cases hq : s.queue with
          | nil => simp [processQueue, hq, Inv]
          | cons v r2 => simp [processQueue, hq, Inv]
  | stopEv =>
      simp [stepEv, stop, Inv]

theorem inv_trace (s : SState) (es : List Ev) (h : Inv s) :
    ∀ s' ∈ trace s es, Inv s' := by
  induction es generalizing s with
  | nil =>
      intro s' hm
      simp only [trace, List.mem_singleton] at hm
      subst hm; exact h
  | cons e es ih =>
      intro s' hm
      simp only [trace, List.mem_cons] at hm
      rcases hm with rfl | hm
      · exact h
      · exact ih (stepEv s e) (inv_step s e h) s' hm

theorem run_append (s : SState) (es1 es2 : List Ev) :
    run s (es1 ++ es2) = run (run s es1) es2 := by
  induction es1 generalizing s with
  | nil => rfl
  | cons e es ih => simp [run, ih]

/-- Enqueueing while the processing flag is up only appends to the queue. -/
theorem run_enq_processing (l : List ℕ) (s : SState)
    (h : s.isProcessingQueue = true) :
    run s (l.map Ev.enq) = { s with queue := s.queue ++ l } := by
  induction l generalizing s with
  | nil => simp [run]
  | cons u l ih =>
      simp only [List.map_cons, run, stepEv, speak, h]
      simp only [if_true]
      rw [ih _ (by simp [h])]
      simp

/-- Draining the queue: from a state vocalizing u with q still queued,
one completion per outstanding utterance empties everything and fires the
callbacks in order. -/
theorem run_drain (q : List ℕ) (u : ℕ) (c : List ℕ) :
    run ⟨q, true, true, [u], c⟩ (List.replicate (q.length + 1) Ev.done) =
      ⟨[], false, false, [], c ++ u :: q⟩ := by
  induction q generalizing u c with
  | nil =>
      simp [run, List.replicate, stepEv, completeCurrent, processQueue]
  | cons v q ih =>
      have h1 : stepEv ⟨v :: q, true, true, [u], c⟩ Ev.done =
          ⟨q, true, true, [v], c ++ [u]⟩ := by
        simp [stepEv, completeCurrent, processQueue]
      calc run ⟨v :: q, true, true, [u], c⟩
            (List.replicate ((v :: q).length + 1) Ev.done)
          = run ⟨q, true, true, [v], c ++ [u]⟩
            (List.replicate (q.length + 1) Ev.done) := by
            simp only [List.length_cons]
            rw [show q.length + 1 + 1 = (q.length + 1) + 1 from rfl,
              List.replicate_succ]
            simp [run, h1]
        _ = ⟨[], false, false, [], (c ++ [u]) ++ v :: q⟩ := ih v (c ++ [u])
        _ = ⟨[], false, false, [], c ++ u :: v :: q⟩ := by simp

/-- C1.  Enqueueing the utterances of l while the queue is idle and letting
the TTS device complete each one yields exactly one completion callback per
utterance, fired in insertion order, the queue ends empty, and along the
whole run at most one utterance is ever being vocalized (each completion is
what starts the next queued utterance, via processQueue inside the
completion handler). -/
theorem speechQueue_fifo_serialized (l : List ℕ) :
    (run idleS (l.map Ev.enq ++ List.replicate l.length Ev.done)).callbacks = l ∧
    (run idleS (l.map Ev.enq ++ List.replicate l.length Ev.done)).speaking = [] ∧
    (run idleS (l.map Ev.enq ++ List.replicate l.length Ev.done)).queue = [] ∧
    ∀ s' ∈ trace idleS (l.map Ev.enq ++ List.replicate l.length Ev.done),
      s'.speaking.length ≤ 1 := by
  have htr : ∀ s' ∈ trace idleS (l.map Ev.enq ++ List.replicate l.length Ev.done),
      s'.speaking.length ≤ 1 := by
    intro s' hm
    exact (inv_trace idleS _ inv_idle s' hm).1
  cases l with
  | nil => exact ⟨rfl, rfl, rfl, htr⟩
  | cons u l =>
      have hstep1 : run idleS [Ev.enq u] = ⟨[], true, true, [u], []⟩ := by
        simp [run, stepEv, speak, idleS, processQueue]
      have hphase1 : run idleS ((u :: l).map Ev.enq) = ⟨l, true, true, [u], []⟩ := by
        have : (u :: l).map Ev.enq = [Ev.enq u] ++ l.map Ev.enq := by simp
        rw [this, run_append, hstep1, run_enq_processing l _ rfl]
        simp
      have hfinal : run idleS ((u :: l).map Ev.enq ++
          List.replicate (u :: l).length Ev.done) =
          ⟨[], false, false, [], u :: l⟩ := by
        rw [run_append, hphase1]
        have := run_drain l u []
        simpa using this
      refine ⟨?_, ?_, ?_, htr⟩ <;> rw [hfinal]

/-- Witness for C1 at the concrete utterance list [3, 7]. -/
theorem speechQueue_fifo_serialized_witness :
    (run idleS ([3, 7].map Ev.enq ++ List.replicate 2 Ev.done)).callbacks = [3, 7] ∧
    idleS.speaking.length ≤ 1 := by
  have h := speechQueue_fifo_serialized [3, 7]
  refine ⟨h.1, h.2.2.2 idleS ?_⟩
  simp [trace]

/-- The state reached by: enqueue utterance 0 from idle (it starts
vocalizing), call stop while it is outstanding, then enqueue utterance 1. -/
def stuckAfterStop : SState := speak 1 (stop (speak 0 idleS))

/-- C3 (code bug).  After stop while an utterance is outstanding, the
source leaves isProcessingQueue true, so a subsequent speak only pushes
the new utterance onto the queue without restarting processQueue; since
nothing is being vocalized, no completion event can ever fire, and the
new utterance stays in the queue forever (no number of TTS completion
events changes the state, and its callback never fires). -/
theorem stop_leaves_processing_flag_stuck :
    stuckAfterStop.queue = [1] ∧
    stuckAfterStop.isProcessingQueue = true ∧
    stuckAfterStop.speaking = [] ∧
    stuckAfterStop.callbacks = [] ∧
    ∀ k : ℕ, run stuckAfterStop (List.replicate k Ev.done) = stuckAfterStop := by
  refine ⟨rfl, rfl, rfl, rfl, ?_⟩
  intro k
  have hstep : stepEv stuckAfterStop Ev.done = stuckAfterStop := rfl
  induction k with
  | zero => rfl
  | succ n ih => rw [List.replicate_succ, run, hstep, ih]

end SpeechM

namespace LocM

/-!
LocationService pure utilities (translated from services/LocationService.ts).

calculateBearing is real-valued: JS Math.sin / Math.cos / Math.atan2 are
modelled by their exact real counterparts, Math.atan2 y x being the
argument of the complex number x + y i, which lies in (-pi, pi].  The JS
remainder operator percent used for the final normalization truncates its
quotient toward zero, which for the nonnegative dividends arising here
coincides with the floor-based remainder.
-/

/-- JS Math.atan2 y x, modelled as the principal argument of x + y i. -/
noncomputable def atan2 (y x : ℝ) : ℝ := Complex.arg ⟨x, y⟩

theorem neg_pi_lt_atan2 (y x : ℝ) : -Real.pi < atan2 y x :=
  Complex.neg_pi_lt_arg _

/-- JS truncation toward zero (the quotient of the percent operator). -/
noncomputable def rtz (x : ℝ) : ℤ := if 0 ≤ x then ⌊x⌋ else ⌈x⌉

/-- JS remainder a percent b (sign follows the dividend). -/
noncomputable def jsRem (a b : ℝ) : ℝ := a - b * rtz (a / b)

/-- The angle theta computed inside calculateBearing, before conversion to
degrees: atan2 of the forward-azimuth y and x terms of the source. -/
noncomputable def bearingAngle (lat1 lon1 lat2 lon2 : ℝ) : ℝ :=
  atan2
    (Real.sin (lon2 * Real.pi / 180 - lon1 * Real.pi / 180) *
      Real.cos (lat2 * Real.pi / 180))
    (Real.cos (lat1 * Real.pi / 180) * Real.sin (lat2 * Real.pi / 180) -
      Real.sin (lat1 * Real.pi / 180) * Real.cos (lat2 * Real.pi / 180) *
        Real.cos (lon2 * Real.pi / 180 - lon1 * Real.pi / 180))

/-- Translation of LocationService.calculateBearing: converts the
forward-azimuth angle to degrees and normalizes with (theta deg + 360)
percent 360. -/
noncomputable def calculateBearing (lat1 lon1 lat2 lon2 : ℝ) : ℝ :=
  jsRem (bearingAngle lat1 lon1 lat2 lon2 * 180 / Real.pi + 360) 360

theorem jsRem_nonneg_mem (a : ℝ) (h : 0 ≤ a) :
    jsRem a 360 ∈ Set.Ico (0 : ℝ) 360 := by
  have hq : 0 ≤ a / 360 := by positivity
  have hrtz : rtz (a / 360) = ⌊a / 360⌋ := by simp [rtz, hq]
  have hfr : jsRem a 360 = 360 * Int.fract (a / 360) := by
    rw [jsRem, hrtz, Int.fract]
    field_simp
  rw [hfr]
  constructor
  · have := Int.fract_nonneg (a / 360)
    positivity
  · have := Int.fract_lt_one (a / 360)
    nlinarith

theorem calculateBearing_mem (lat1 lon1 lat2 lon2 : ℝ) :
    calculateBearing lat1 lon1 lat2 lon2 ∈ Set.Ico (0 : ℝ) 360 := by
  have hpi := Real.pi_pos
  have ht := neg_pi_lt_atan2
    (Real.sin (lon2 * Real.pi / 180 - lon1 * Real.pi / 180) *
      Real.cos (lat2 * Real.pi / 180))
    (Real.cos (lat1 * Real.pi / 180) * Real.sin (lat2 * Real.pi / 180) -
      Real.sin (lat1 * Real.pi / 180) * Real.cos (lat2 * Real.pi / 180) *
        Real.cos (lon2 * Real.pi / 180 - lon1 * Real.pi / 180))
  unfold calculateBearing
  apply jsRem_nonneg_mem
  have h1 : -180 < bearingAngle lat1 lon1 lat2 lon2 * 180 / Real.pi := by
    rw [lt_div_iff₀ hpi]
    unfold bearingAngle
    nlinarith
  linarith

/-- The direction table of LocationService.bearingToDirection: nine
entries, North duplicated at both ends. -/
def directions : List String :=
  ["North", "Northeast", "East", "Southeast", "South", "Southwest",
   "West", "Northwest", "North"]

/-- The eight labeled cardinal and ordinal directions. -/
def compass8 : List String := directions.take 8

/-- JS array access with a possibly negative integer index (a negative
index reads undefined, modelled as none). -/
def listGetZ (l : List String) (i : ℤ) : Option String :=
  if 0 ≤ i then l[i.toNat]? else none

/-- Translation of LocationService.bearingToDirection: index the nine-entry
table at Math.round (bearing / 45) percent 8 (JS truncating remainder). -/
def bearingToDirection (bearing : ℚ) : Option String :=
  listGetZ directions (Int.tmod (jsRound (bearing / 45)) 8)

theorem directions_index_eq (r : ℤ) (h0 : 0 ≤ r) (h8 : r ≤ 8) :
    listGetZ directions (Int.tmod r 8) = compass8[r.toNat % 8]? := by
  interval_cases r <;> decide

theorem bearingToDirection_spec (b : ℚ) (h0 : 0 ≤ b) (h1 : b < 360) :
    bearingToDirection b = compass8[(jsRound (b / 45)).toNat % 8]? := by
  have hr0 : 0 ≤ jsRound (b / 45) := by
    rw [jsRound]
    apply Int.floor_nonneg.mpr
    positivity
  have hr8 : jsRound (b / 45) ≤ 8 := by
    rw [jsRound]
    have hb : b / 45 < 8 := by
      rw [div_lt_iff₀ (by norm_num : (0:ℚ) < 45)]
      linarith
    have : ⌊b / 45 + 1/2⌋ < (9 : ℤ) := by
      apply Int.floor_lt.mpr
      push_cast
      linarith
    omega
  unfold bearingToDirection
  exact directions_index_eq _ hr0 hr8

/-- C9.  The bearing returned by calculateBearing always lies in
[0, 360); bearingToDirection on a bearing in [0, 360) is exactly the
direction whose index is round (bearing / 45) mod 8 over the eight labeled
cardinal and ordinal directions, and both bearing 0 and bearing 360 map to
North. -/
theorem bearing_range_and_compass :
    (∀ lat1 lon1 lat2 lon2 : ℝ,
        calculateBearing lat1 lon1 lat2 lon2 ∈ Set.Ico (0 : ℝ) 360) ∧
    (∀ b : ℚ, 0 ≤ b → b < 360 →
        bearingToDirection b = compass8[(jsRound (b / 45)).toNat % 8]?) ∧
    bearingToDirection 0 = some "North" ∧
    bearingToDirection 360 = some "North" := by
  refine ⟨calculateBearing_mem, bearingToDirection_spec, ?_, ?_⟩
  · have h : jsRound ((0 : ℚ) / 45) = 0 := by norm_num [jsRound]
    rw [bearingToDirection, h]
    decide
  · have h : jsRound ((360 : ℚ) / 45) = 8 := by norm_num [jsRound]
    rw [bearingToDirection, h]
    decide

/-- Witness for C9 at concrete inputs: coordinates (0,0) to (1,1), and
bearing 90 mapping to East. -/
theorem bearing_range_and_compass_witness :
    calculateBearing 0 0 1 1 ∈ Set.Ico (0 : ℝ) 360 ∧
    bearingToDirection 90 = some "East" := by
  refine ⟨bearing_range_and_compass.1 0 0 1 1, ?_⟩
  have h := bearing_range_and_compass.2.1 90 (by norm_num) (by norm_num)
  have h90 : jsRound ((90 : ℚ) / 45) = 2 := by norm_num [jsRound]
  rw [h, h90]
  decide

end LocM

namespace NavM

/-!
NavigationService (translated from services/NavigationService.ts).

Coordinates keep the latitude and longitude fields of the source record
(the remaining fields of the catalog entries are all null and never read).
The service is parameterized by the two oracles it consumes from
collaborators: calcDist models locationService.calculateDistance on a pair
of coordinates, and dirOf models the composition of calculateBearing and
bearingToDirection used by the step generator (both are float-valued in
the source; the orchestrator logic only forwards their results).  The two
Math.random draws of generateNavigationSteps are the booleans rnd1 and
rnd2 (true picks the first entry of the turnDirections array, which is
right).  Callback wiring is modelled by event logs inside the state:
spoken, haptics, errors, arrivals (onArrival), stepChanges (onStepChange),
stepsCompleted (onStepCompleted), locUpdates (onLocationUpdate).  The
fields timersLive and watchesLive count the interval timers and position
watches currently registered in the runtime (setInterval and
Location.watchPositionAsync allocate one; clearInterval and remove
release one).
-/

structure LocationCoordinates where
  latitude : ℚ
  longitude : ℚ
deriving DecidableEq, Repr

structure Destination where
  id : String
  name : String
  coordinates : LocationCoordinates
deriving DecidableEq, Repr

structure NavigationStep where
  id : String
  instruction : String
  distance : ℤ
  direction : String
  isCompleted : Bool
deriving DecidableEq, Repr

inductive Haptic where
  | light
  | medium
  | heavy
  | success
  | warning
  | errorFb
deriving DecidableEq, Repr

structure NavOptions where
  announceSteps : Bool := true
  hapticFeedback : Bool := true
  distanceThreshold : ℚ := 10
  updateInterval : ℕ := 5000
deriving Repr

structure NavState where
  isNavigating : Bool
  currentDestination : Option Destination
  navigationSteps : List NavigationStep
  currentStepIndex : ℕ
  updateTimer : Bool
  lastLocation : Option LocationCoordinates
  watchActive : Bool
  timersLive : ℕ
  watchesLive : ℕ
  spoken : List String
  haptics : List Haptic
  errors : List String
  arrivals : ℕ
  stepChanges : List ℕ
  stepsCompleted : List ℕ
  locUpdates : ℕ
deriving DecidableEq, Repr

def initialNavState : NavState :=
  ⟨false, none, [], 0, false, none, false, 0, 0, [], [], [], 0, [], [], 0⟩

def pushSpoken (s : NavState) (m : String) : NavState :=
  { s with spoken := s.spoken ++ [m] }

def pushHaptic (s : NavState) (h : Haptic) : NavState :=
  { s with haptics := s.haptics ++ [h] }

def pushErr (s : NavState) (m : String) : NavState :=
  { s with errors := s.errors ++ [m] }

def pushStepChange (s : NavState) (i : ℕ) : NavState :=
  { s with stepChanges := s.stepChanges ++ [i] }

/-- The static catalog commonDestinations of the source. -/
def commonDestinations : List Destination :=
  [ ⟨"grocery-store", "Grocery Store", ⟨37.78825, -122.4324⟩⟩,
    ⟨"park", "Park", ⟨37.78525, -122.4354⟩⟩,
    ⟨"library", "Library", ⟨37.78925, -122.4374⟩⟩,
    ⟨"bus-stop", "Bus Stop", ⟨37.78625, -122.4304⟩⟩,
    ⟨"home", "Home", ⟨37.78725, -122.4334⟩⟩ ]

/-- Resolution of a string destination reference inside startNavigation:
getDestinationById first, then getDestinationByName. -/
def resolveDestination (d : String) : Option Destination :=
  match commonDestinations.find? (fun dst => dst.id == d) with
  | some t => some t
  | none => commonDestinations.find? (fun dst => dst.name == d)

/-- Translation of NavigationService.generateNavigationSteps.  The source
first computes totalDistance via calculateDistance and the initial compass
direction via calculateBearing and bearingToDirection; those two values
are the td and dir arguments here, and the two Math.random turn draws are
rnd1 and rnd2. -/
def generateNavigationSteps (td : ℚ) (dir : String) (rnd1 rnd2 : Bool) :
    List NavigationStep :=
  let third := jsRound (td / 3)
  let randomTurn := if rnd1 then "right" else "left"
  let secondTurn := if rnd2 then "right" else "left"
  [ ⟨"step-1", "Head " ++ dir.toLower ++ " for " ++ toString third ++ " meters",
      third, dir, false⟩,
    ⟨"step-2", "Turn " ++ randomTurn ++ " at the intersection",
      0, if rnd1 then "Right" else "Left", false⟩,
    ⟨"step-3", "Continue straight for " ++ toString third ++ " meters",
      third, "Straight", false⟩,
    ⟨"step-4", "Cross the street at the pedestrian crossing",
      0, "Straight", false⟩,
    ⟨"step-5", "Turn " ++ secondTurn ++ " after the bus stop",
      0, if rnd2 then "Right" else "Left", false⟩,
    ⟨"step-6", "Your destination is " ++ toString third ++
        " meters ahead on your " ++ randomTurn,
      third, if rnd1 then "Right" else "Left", false⟩ ]

/-- Translation of LocationService.stopLocationTracking: remove the watch
when one is registered. -/
def stopLocationTracking (s : NavState) : NavState :=
  { s with watchActive := false,
           watchesLive := s.watchesLive - (if s.watchActive then 1 else 0) }

/-- Translation of LocationService.startWatching: any existing watch is
stopped first, then a fresh position watch is registered. -/
def startWatching (s : NavState) : NavState :=
  let s1 := stopLocationTracking s
  { s1 with watchActive := true, watchesLive := s1.watchesLive + 1 }

/-- Translation of NavigationService.startLocationTracking minus the
interval callback body (tick below): start the location watch, then
register the progress-check interval timer. -/
def startLocationTracking (s : NavState) : NavState :=
  let s1 := startWatching s
  { s1 with updateTimer := true, timersLive := s1.timersLive + 1 }

/-- Translation of NavigationService.stopNavigation: early return when not
navigating; otherwise clear the session fields, clear the interval timer
when present, and stop location tracking. -/
def stopNavigation (s : NavState) : NavState :=
  if s.isNavigating = false then s
  else
    let s1 := { s with isNavigating := false, currentDestination := none,
                       navigationSteps := [], currentStepIndex := 0 }
    let s2 := { s1 with updateTimer := false,
                        timersLive := s1.timersLive - (if s1.updateTimer then 1 else 0) }
    stopLocationTracking s2

/-- Body of NavigationService.startNavigation after its initial
stop-if-navigating line, applied to the state s0 left by that line.
currentLocation is the result of the asynchronous
locationService.getCurrentLocation call (none when no fix is obtainable).
Returns the boolean result of the source together with the new state. -/
def startNavigationResolved
    (calcDist : LocationCoordinates → LocationCoordinates → ℚ)
    (dirOf : LocationCoordinates → LocationCoordinates → String)
    (rnd1 rnd2 : Bool) (dest : String)
    (currentLocation : Option LocationCoordinates)
    (opts : NavOptions) (s0 : NavState) : Bool × NavState :=
  match resolveDestination dest with
  | none => (false, pushErr s0 "Invalid destination")
  | some target =>
      match currentLocation with
      | none => (false, pushErr s0 "Unable to get current location")
      | some loc =>
          let steps := generateNavigationSteps
            (calcDist loc target.coordinates) (dirOf loc target.coordinates)
            rnd1 rnd2
          let s1 := { s0 with lastLocation := some loc,
                              currentDestination := some target,
                              isNavigating := true,
                              navigationSteps := steps,
                              currentStepIndex := 0 }
          let s2 := if opts.announceSteps then
              pushSpoken s1 ("Starting navigation to " ++ target.name ++ ". " ++
                ((steps.head?.map (fun st => st.instruction)).getD ""))
            else s1
          let s3 := if opts.hapticFeedback then pushHaptic s2 Haptic.medium else s2
          let s4 := pushStepChange s3 0
          (true, startLocationTracking s4)

/-- Translation of NavigationService.startNavigation: when a session is
already active, stop it, then run the resolution and setup body. -/
def startNavigation (calcDist : LocationCoordinates → LocationCoordinates → ℚ)
    (dirOf : LocationCoordinates → LocationCoordinates → String)
    (rnd1 rnd2 : Bool) (dest : String)
    (currentLocation : Option LocationCoordinates)
    (opts : NavOptions) (s : NavState) : Bool × NavState :=
  startNavigationResolved calcDist dirOf rnd1 rnd2 dest currentLocation opts
    (if s.isNavigating then stopNavigation s else s)

/-- Translation of the setInterval callback installed by
startLocationTracking: guard on an active session with a known position
and destination; on arrival (distance at most the threshold) announce,
fire the success haptic (vibrateArrival), invoke onArrival and clear the
interval timer only; otherwise advance to the next step once per tick
until the final step (vibrateTurn fires the medium haptic twice). -/
def tick (calcDist : LocationCoordinates → LocationCoordinates → ℚ)
    (threshold : ℚ) (announce haptic : Bool) (s : NavState) : NavState :=
  if s.isNavigating = false then s
  else
    match s.lastLocation, s.currentDestination with
    | some loc, some dst =>
        if calcDist loc dst.coordinates ≤ threshold then
          let s1 := { s with isNavigating := false }
          let s2 := if announce then
              pushSpoken s1 ("You have arrived at " ++ dst.name) else s1
          let s3 := if haptic then pushHaptic s2 Haptic.success else s2
          let s4 := { s3 with arrivals := s3.arrivals + 1 }
          { s4 with updateTimer := false,
                    timersLive := s4.timersLive - (if s4.updateTimer then 1 else 0) }
        else
          match s.navigationSteps[s.currentStepIndex]? with
          | none => s
          | some cs =>
              if cs.isCompleted then s
              else if s.currentStepIndex < s.navigationSteps.length - 1 then
                let steps := s.navigationSteps.set s.currentStepIndex
                  { cs with isCompleted := true }
                let s1 := { s with navigationSteps := steps,
                                   stepsCompleted := s.stepsCompleted ++ [s.currentStepIndex] }
                let newIdx := s.currentStepIndex + 1
                let s2 := { s1 with currentStepIndex := newIdx }
                let instr := ((steps[newIdx]?).map (fun st => st.instruction)).getD ""
                let s3 := if announce then pushSpoken s2 instr else s2
                let s4 := if haptic then
                    pushHaptic (pushHaptic s3 Haptic.medium) Haptic.medium else s3
                pushStepChange s4 newIdx
              else s
    | _, _ => s

/-- The position-watch callback wired in startLocationTracking: while the
watch is registered, each position sample updates lastLocation and fires
onLocationUpdate. -/
def locationUpdate (p : LocationCoordinates) (s : NavState) : NavState :=
  if s.watchActive then
    { s with lastLocation := some p, locUpdates := s.locUpdates + 1 }
  else s

theorem stopNavigation_eq (s : NavState) (h : s.isNavigating = true) :
    stopNavigation s =
      { s with isNavigating := false, currentDestination := none,
               navigationSteps := [], currentStepIndex := 0,
               updateTimer := false,
               timersLive := s.timersLive - (if s.updateTimer then 1 else 0),
               watchActive := false,
               watchesLive := s.watchesLive - (if s.watchActive then 1 else 0) } := by
  simp [stopNavigation, stopLocationTracking, h]

theorem tick_not_navigating (calcDist : LocationCoordinates → LocationCoordinates → ℚ)
    (threshold : ℚ) (announce haptic : Bool) (s : NavState)
    (h : s.isNavigating = false) :
    tick calcDist threshold announce haptic s = s := by
  simp [tick, h]

theorem tick_arrival_eq (calcDist : LocationCoordinates → LocationCoordinates → ℚ)
    (threshold : ℚ) (s : NavState) (loc : LocationCoordinates) (dst : Destination)
    (h1 : s.isNavigating = true) (h2 : s.lastLocation = some loc)
    (h3 : s.currentDestination = some dst)
    (h4 : calcDist loc dst.coordinates ≤ threshold) :
    tick calcDist threshold true true s =
      { s with isNavigating := false,
               spoken := s.spoken ++ ["You have arrived at " ++ dst.name],
               haptics := s.haptics ++ [Haptic.success],
               arrivals := s.arrivals + 1,
               updateTimer := false,
               timersLive := s.timersLive - (if s.updateTimer then 1 else 0) } := by
  simp only [tick, h1, h2, h3]
  simp only [Bool.true_eq_false, if_false, if_pos h4]
  simp [pushSpoken, pushHaptic]

/-- C5.  The generated route always has exactly six steps; the first and
third step distances are each round (totalDistance / 3), the second,
fourth and fifth steps carry 0 distance, whatever the distance magnitude,
the initial direction, and the random turn draws (the sixth step also
carries round (totalDistance / 3)). -/
theorem route_fixed_shape (td : ℚ) (dir : String) (rnd1 rnd2 : Bool) :
    (generateNavigationSteps td dir rnd1 rnd2).length = 6 ∧
    (generateNavigationSteps td dir rnd1 rnd2).map (fun st => st.distance) =
      [jsRound (td / 3), 0, jsRound (td / 3), 0, 0, jsRound (td / 3)] := by
  constructor <;> rfl

/-- C4.  Starting navigation with a destination reference that matches no
catalog entry by id or by name returns false, pushes exactly one Invalid
destination error and nothing else: the state machine ends outside Active,
no announcement or haptic fires, no timer or watch is created, and when
the call is made from a non-navigating state the state is untouched apart
from the error log (when made while navigating, the prior session is
fully cleared first). -/
theorem unknown_destination_stays_idle
    (calcDist : LocationCoordinates → LocationCoordinates → ℚ)
    (dirOf : LocationCoordinates → LocationCoordinates → String)
    (rnd1 rnd2 : Bool) (dest : String)
    (currentLocation : Option LocationCoordinates)
    (opts : NavOptions) (s : NavState)
    (r : Bool × NavState)
    (hr : r = startNavigation calcDist dirOf rnd1 rnd2 dest currentLocation opts s)
    (h : resolveDestination dest = none) :
    r.1 = false ∧
    r.2.isNavigating = false ∧
    r.2.errors = s.errors ++ ["Invalid destination"] ∧
    r.2.spoken = s.spoken ∧
    r.2.haptics = s.haptics ∧
    r.2.timersLive ≤ s.timersLive ∧
    r.2.watchesLive ≤ s.watchesLive ∧
    (s.isNavigating = true →
      r.2.currentDestination = none ∧ r.2.navigationSteps = [] ∧
      r.2.updateTimer = false ∧ r.2.watchActive = false) ∧
    (s.isNavigating = false → r.2 = pushErr s "Invalid destination") := by
  subst hr
  by_cases hnav : s.isNavigating
  · have e1 : startNavigation calcDist dirOf rnd1 rnd2 dest currentLocation opts s =
        (false, pushErr (stopNavigation s) "Invalid destination") := by
      simp only [startNavigation, startNavigationResolved, h, hnav, if_true]
    rw [e1, stopNavigation_eq s hnav]
    exact ⟨rfl, rfl, rfl, rfl, rfl, Nat.sub_le _ _, Nat.sub_le _ _,
      fun _ => ⟨rfl, rfl, rfl, rfl⟩,
      fun hc => Bool.noConfusion (hnav.symm.trans hc)⟩
  · have hnav' : s.isNavigating = false := by simpa using hnav
    have e1 : startNavigation calcDist dirOf rnd1 rnd2 dest currentLocation opts s =
        (false, pushErr s "Invalid destination") := by
      simp only [startNavigation, startNavigationResolved, h, hnav',
        Bool.false_eq_true, if_false]
    rw [e1]
    exact ⟨rfl, hnav', rfl, rfl, rfl, le_refl _, le_refl _,
      fun hc => Bool.noConfusion (hnav'.symm.trans hc), fun _ => rfl⟩

/-- A distance oracle whose samples are already within every nonnegative
threshold: the tracked position has converged onto the destination. -/
def demoCalc : LocationCoordinates → LocationCoordinates → ℚ := fun _ _ => 0

def demoDir : LocationCoordinates → LocationCoordinates → String := fun _ _ => "North"

def startLoc : LocationCoordinates := ⟨0, 0⟩

/-- The Park entry of the static catalog. -/
def parkDest : Destination := ⟨"park", "Park", ⟨37.78525, -122.4354⟩⟩

/-- An Active session: navigation started toward Park from the idle state
with default options. -/
def activeRun : NavState :=
  (startNavigation demoCalc demoDir true true "Park" (some startLoc) {}
    initialNavState).2

/-- The state after the first progress tick of the Active session, whose
tracked position is within the default 10 m threshold: the arrival branch
runs. -/
def arrivedRun : NavState := tick demoCalc 10 true true activeRun

/-- Counterexample for C2: on arrival the orchestrator clears its interval
timer but does NOT tear down the location subscription: the watch is still
registered afterwards, and a subsequent position update is still processed
by the orchestrator callback (lastLocation mutates and onLocationUpdate
fires), contradicting the claim that both the timer and the subscription
are torn down and that subsequent position updates produce no further
activity. -/
theorem arrival_keeps_location_subscription :
    arrivedRun.isNavigating = false ∧
    arrivedRun.arrivals = 1 ∧
    arrivedRun.updateTimer = false ∧
    arrivedRun.timersLive = 0 ∧
    arrivedRun.watchActive = true ∧
    arrivedRun.watchesLive = 1 ∧
    (locationUpdate ⟨1, 1⟩ arrivedRun).locUpdates = arrivedRun.locUpdates + 1 ∧
    (locationUpdate ⟨1, 1⟩ arrivedRun).lastLocation = some ⟨1, 1⟩ :=
  ⟨rfl, rfl, rfl, rfl, rfl, rfl, rfl, rfl⟩

/-- C2 as amended.  When the tracked position of an Active session comes
within the threshold of the destination, the tick transitions out of
Active exactly once, emits exactly one arrival announcement and one
success haptic, and tears down its update timer, so subsequent ticks
produce no further orchestrator activity; but the location subscription is
not torn down: the watch stays registered and later position updates are
still processed by the orchestrator callback. -/
theorem arrival_once_timer_torn_watch_kept
    (calcDist : LocationCoordinates → LocationCoordinates → ℚ)
    (threshold : ℚ) (s : NavState) (loc : LocationCoordinates)
    (dst : Destination)
    (h1 : s.isNavigating = true) (h2 : s.lastLocation = some loc)
    (h3 : s.currentDestination = some dst)
    (h4 : calcDist loc dst.coordinates ≤ threshold)
    (h5 : s.updateTimer = true) (h6 : s.watchActive = true) :
    (tick calcDist threshold true true s).isNavigating = false ∧
    (tick calcDist threshold true true s).arrivals = s.arrivals + 1 ∧
    (tick calcDist threshold true true s).spoken =
      s.spoken ++ ["You have arrived at " ++ dst.name] ∧
    (tick calcDist threshold true true s).haptics =
      s.haptics ++ [Haptic.success] ∧
    (tick calcDist threshold true true s).updateTimer = false ∧
    (tick calcDist threshold true true s).timersLive = s.timersLive - 1 ∧
    (tick calcDist threshold true true s).watchActive = true ∧
    (tick calcDist threshold true true s).watchesLive = s.watchesLive ∧
    tick calcDist threshold true true (tick calcDist threshold true true s) =
      tick calcDist threshold true true s ∧
    (∀ p : LocationCoordinates,
      (locationUpdate p (tick calcDist threshold true true s)).lastLocation = some p ∧
      (locationUpdate p (tick calcDist threshold true true s)).locUpdates =
        (tick calcDist threshold true true s).locUpdates + 1) := by
  rw [tick_arrival_eq calcDist threshold s loc dst h1 h2 h3 h4]
  refine ⟨rfl, rfl, rfl, rfl, rfl, by rw [h5]; simp, h6, rfl,
    tick_not_navigating _ _ _ _ _ rfl, ?_⟩
  intro p
  constructor <;> simp [locationUpdate, h6]

/-- Witness for the amended C2 at the concrete Active session toward Park. -/
theorem arrival_once_timer_torn_watch_kept_witness :
    (tick demoCalc 10 true true activeRun).isNavigating = false ∧
    (tick demoCalc 10 true true activeRun).arrivals = activeRun.arrivals + 1 ∧
    (tick demoCalc 10 true true activeRun).updateTimer = false ∧
    (tick demoCalc 10 true true activeRun).watchActive = true := by
  have h := arrival_once_timer_torn_watch_kept demoCalc 10 activeRun startLoc
    parkDest rfl rfl rfl (by decide) rfl rfl
  exact ⟨h.1, h.2.1, h.2.2.2.2.1, h.2.2.2.2.2.2.1⟩

/-- Witness for C4: starting toward the unknown reference Moon Base from
the idle initial state fails with exactly one Invalid destination error. -/
theorem unknown_destination_stays_idle_witness :
    (startNavigation (fun _ _ => 0) (fun _ _ => "North") true true "Moon Base"
        none {} initialNavState).1 = false ∧
    (startNavigation (fun _ _ => 0) (fun _ _ => "North") true true "Moon Base"
        none {} initialNavState).2.errors = ["Invalid destination"] := by
  have h := unknown_destination_stays_idle (fun _ _ => 0) (fun _ _ => "North")
    true true "Moon Base" none {} initialNavState _ rfl (by decide)
  exact ⟨h.1, h.2.2.1⟩

/-- Resource invariant of the navigation service: the number of interval
timers registered in the runtime matches the single updateInterval field
(so it is at most one), likewise for position watches, and outside an
active session no update timer is pending. -/
def NavInv (s : NavState) : Prop :=
  s.timersLive = (if s.updateTimer then 1 else 0) ∧
  s.watchesLive = (if s.watchActive then 1 else 0) ∧
  (s.isNavigating = false → s.updateTimer = false)

theorem navInv_stopNavigation (s : NavState) (h : NavInv s) :
    NavInv (stopNavigation s) := by
  obtain ⟨ht, hw, hn⟩ := h
  by_cases hnav : s.isNavigating
  · rw [stopNavigation_eq s hnav]
    refine ⟨?_, ?_, fun _ => rfl⟩
    · cases hu : s.updateTimer <;> simp [ht, hu]
    · cases hwa : s.watchActive <;> simp [hw, hwa]
  · have hnav' : s.isNavigating = false := by simpa using hnav
    rw [show stopNavigation s = s by simp [stopNavigation, hnav']]
    exact ⟨ht, hw, hn⟩

theorem navInv_startLocationTracking (s0 : NavState) (h : NavInv s0)
    (hupd : s0.updateTimer = false) (hn : s0.isNavigating = true) :
    NavInv (startLocationTracking s0) := by
  obtain ⟨ht, hw, _⟩ := h
  refine ⟨?_, ?_, fun hc => Bool.noConfusion (hn.symm.trans hc)⟩
  · simp [startLocationTracking, startWatching, stopLocationTracking, ht, hupd]
  · cases hwa : s0.watchActive <;>
      simp [startLocationTracking, startWatching, stopLocationTracking, hw, hwa]

theorem navInv_startNavigationResolved
    (calcDist : LocationCoordinates → LocationCoordinates → ℚ)
    (dirOf : LocationCoordinates → LocationCoordinates → String)
    (rnd1 rnd2 : Bool) (dest : String)
    (currentLocation : Option LocationCoordinates)
    (opts : NavOptions) (s0 : NavState) (h0 : NavInv s0)
    (hupd : s0.updateTimer = false) :
    NavInv (startNavigationResolved calcDist dirOf rnd1 rnd2 dest
      currentLocation opts s0).2 := by
  unfold startNavigationResolved
  cases hres : resolveDestination dest with
  | none => exact h0
  | some target =>
      cases currentLocation with
      | none => exact h0
      | some loc =>
          obtain ⟨ht, hw, _⟩ := h0
          apply navInv_startLocationTracking
          · refine ⟨?_, ?_, fun hc => ?_⟩
            · by_cases ha : opts.announceSteps <;>
                by_cases hh : opts.hapticFeedback <;>
                simp [ha, hh, pushStepChange, pushHaptic, pushSpoken, ht]
            · by_cases ha : opts.announceSteps <;>
                by_cases hh : opts.hapticFeedback <;>
                simp [ha, hh, pushStepChange, pushHaptic, pushSpoken, hw]
            · exfalso
              revert hc
              by_cases ha : opts.announceSteps <;>
                by_cases hh : opts.hapticFeedback <;>
                simp [ha, hh, pushStepChange, pushHaptic, pushSpoken]
          · by_cases ha : opts.announceSteps <;>
              by_cases hh : opts.hapticFeedback <;>
              simp [ha, hh, pushStepChange, pushHaptic, pushSpoken, hupd]
          · by_cases ha : opts.announceSteps <;>
              by_cases hh : opts.hapticFeedback <;>
              simp [ha, hh, pushStepChange, pushHaptic, pushSpoken]

theorem navInv_startNavigation
    (calcDist : LocationCoordinates → LocationCoordinates → ℚ)
    (dirOf : LocationCoordinates → LocationCoordinates → String)
    (rnd1 rnd2 : Bool) (dest : String)
    (currentLocation : Option LocationCoordinates)
    (opts : NavOptions) (s : NavState) (h : NavInv s) :
    NavInv (startNavigation calcDist dirOf rnd1 rnd2 dest
      currentLocation opts s).2 := by
  unfold startNavigation
  by_cases hnav : s.isNavigating
  · rw [if_pos hnav]
    apply navInv_startNavigationResolved
    · exact navInv_stopNavigation s h
    · rw [stopNavigation_eq s hnav]
  · have hnav' : s.isNavigating = false := by simpa using hnav
    rw [if_neg (by simp [hnav'])]
    exact navInv_startNavigationResolved _ _ _ _ _ _ _ _ h (h.2.2 hnav')

theorem navInv_tick (calcDist : LocationCoordinates → LocationCoordinates → ℚ)
    (threshold : ℚ) (announce haptic : Bool) (s : NavState) (h : NavInv s) :
    NavInv (tick calcDist threshold announce haptic s) := by
  obtain ⟨ht, hw, hn⟩ := h
  by_cases hnav : s.isNavigating
  · unfold tick
    rw [if_neg (by simp [hnav])]
    split
    · rename_i loc dst hloc hdst
      split
      · -- arrival branch
        refine ⟨?_, ?_, fun _ => rfl⟩
        · by_cases ha : announce <;> by_cases hh : haptic <;>
            cases hu : s.updateTimer <;>
            simp [ha, hh, hu, ht, pushSpoken, pushHaptic]
        · by_cases ha : announce <;> by_cases hh : haptic <;>
            simp [ha, hh, hw, pushSpoken, pushHaptic]
      · -- step-advance branch
        split
        · exact ⟨ht, hw, hn⟩
        · split
          · exact ⟨ht, hw, hn⟩
          · split
            · refine ⟨?_, ?_, fun hc => ?_⟩
              · by_cases ha : announce <;> by_cases hh : haptic <;>
                  simp [ha, hh, ht, pushSpoken, pushHaptic, pushStepChange]
              · by_cases ha : announce <;> by_cases hh : haptic <;>
                  simp [ha, hh, hw, pushSpoken, pushHaptic, pushStepChange]
              · by_cases ha : announce <;> by_cases hh : haptic <;>
                  simp [ha, hh, pushSpoken, pushHaptic, pushStepChange, hnav] at hc
            · exact ⟨ht, hw, hn⟩
    · exact ⟨ht, hw, hn⟩
  · have hnav' : s.isNavigating = false := by simpa using hnav
    rw [tick_not_navigating _ _ _ _ _ hnav']
    exact ⟨ht, hw, hn⟩

theorem navInv_locationUpdate (p : LocationCoordinates) (s : NavState)
    (h : NavInv s) : NavInv (locationUpdate p s) := by
  obtain ⟨ht, hw, hn⟩ := h
  by_cases hwa : s.watchActive
  · simp only [locationUpdate, hwa, if_true]
    exact ⟨ht, by rw [hw, hwa], hn⟩
  · have hwa' : s.watchActive = false := by simpa using hwa
    simp only [locationUpdate, hwa', Bool.false_eq_true, if_false]
    exact ⟨ht, hw, hn⟩

/-- C10.  A startNavigation call made while a session is Active first
fully stops the existing session: the run is identical to stopping and
then starting, and the stopped intermediate state has no timer, no watch,
no steps and no destination.  Moreover the resource invariant NavInv (at
most one live timer and one live watch, counted exactly by the service
fields) holds initially and is preserved by every operation, so at most
one update timer and one location watch ever exist. -/
theorem restart_stops_previous_session :
    (∀ (calcDist : LocationCoordinates → LocationCoordinates → ℚ)
       (dirOf : LocationCoordinates → LocationCoordinates → String)
       (rnd1 rnd2 : Bool) (dest : String)
       (currentLocation : Option LocationCoordinates)
       (opts : NavOptions) (s : NavState), s.isNavigating = true →
        startNavigation calcDist dirOf rnd1 rnd2 dest currentLocation opts s =
          startNavigation calcDist dirOf rnd1 rnd2 dest currentLocation opts
            (stopNavigation s) ∧
        (stopNavigation s).isNavigating = false ∧
        (stopNavigation s).currentDestination = none ∧
        (stopNavigation s).navigationSteps = [] ∧
        (stopNavigation s).updateTimer = false ∧
        (stopNavigation s).watchActive = false) ∧
    NavInv initialNavState ∧
    (∀ s, NavInv s → NavInv (stopNavigation s)) ∧
    (∀ calcDist dirOf rnd1 rnd2 dest currentLocation opts s, NavInv s →
      NavInv (startNavigation calcDist dirOf rnd1 rnd2 dest currentLocation
        opts s).2) ∧
    (∀ calcDist threshold announce haptic s, NavInv s →
      NavInv (tick calcDist threshold announce haptic s)) ∧
    (∀ p s, NavInv s → NavInv (locationUpdate p s)) ∧
    (∀ s, NavInv s → s.timersLive ≤ 1 ∧ s.watchesLive ≤ 1) := by
  refine ⟨?_, ⟨rfl, rfl, fun _ => rfl⟩, navInv_stopNavigation,
    fun c d r1 r2 de cl o s h => navInv_startNavigation c d r1 r2 de cl o s h,
    fun c th a hp s h => navInv_tick c th a hp s h,
    navInv_locationUpdate, ?_⟩
  · intro calcDist dirOf rnd1 rnd2 dest currentLocation opts s hnav
    have hstop : (stopNavigation s).isNavigating = false := by
      rw [stopNavigation_eq s hnav]
    have hmain : startNavigation calcDist dirOf rnd1 rnd2 dest currentLocation
        opts s =
        startNavigation calcDist dirOf rnd1 rnd2 dest currentLocation opts
          (stopNavigation s) := by
      unfold startNavigation
      rw [if_pos hnav, if_neg (by simp [hstop])]
    refine ⟨hmain, hstop, ?_, ?_, ?_, ?_⟩ <;> rw [stopNavigation_eq s hnav]
  · intro s h
    obtain ⟨ht, hw, _⟩ := h
    constructor
    · rw [ht]; cases s.updateTimer <;> simp
    · rw [hw]; cases s.watchActive <;> simp

/-- A concrete Active state with one live timer and one live watch. -/
def sActiveDemo : NavState :=
  { initialNavState with isNavigating := true, updateTimer := true,
                         timersLive := 1, watchActive := true,
                         watchesLive := 1 }

/-- Witness for C10 at the concrete Active state sActiveDemo. -/
theorem restart_stops_previous_session_witness :
    (stopNavigation sActiveDemo).updateTimer = false ∧
    sActiveDemo.timersLive ≤ 1 := by
  have h1 := (restart_stops_previous_session.1 demoCalc demoDir true true
    "Home" none ({} : NavOptions) sActiveDemo rfl).2.2.2.2.1
  have hinv : NavInv sActiveDemo := by
    refine ⟨?_, ?_, ?_⟩ <;> simp [sActiveDemo, NavInv, initialNavState]
  have h2 := (restart_stops_previous_session.2.2.2.2.2.2 sActiveDemo hinv).1
  exact ⟨h1, h2⟩

end NavM

namespace DetM

/-!
ObjectDetectionService (translated from services/ObjectDetectionService.ts).

processImage receives the per-prediction score, class index and box
returned by the model (the boxes tensor is indexed four floats per
prediction, carried here as four fields).  Date.now is modelled by the
function now from the loop index of the prediction being pushed to the
millisecond clock value at that instant; a coarse clock is a constant
function.  The hardcoded confidence threshold 0.5 of the source is the
normalized rational mkRat 1 2.  The detectFrame timing model keeps
lastFrameTime together with the in-flight cycles whose deferred
lastFrameTime writes have not yet run: the closure awaits takePicture and
processImage before performing the write, and the timer keeps firing
during those suspensions, so a trigger is an atomic guard-and-start while
the write lands only when the cycle finishes (a failed capture throws
before the write, so only the error handler runs).
-/

/-- The COCO label table of the source. -/
def COCO_LABELS : List String :=
  ["person", "bicycle", "car", "motorcycle", "airplane", "bus", "train",
   "truck", "boat", "traffic light", "fire hydrant", "stop sign",
   "parking meter", "bench", "bird", "cat", "dog", "horse", "sheep", "cow",
   "elephant", "bear", "zebra", "giraffe", "backpack", "umbrella",
   "handbag", "tie", "suitcase", "frisbee", "skis", "snowboard",
   "sports ball", "kite", "baseball bat", "baseball glove", "skateboard",
   "surfboard", "tennis racket", "bottle", "wine glass", "cup", "fork",
   "knife", "spoon", "bowl", "banana", "apple", "sandwich", "orange",
   "broccoli", "carrot", "hot dog", "pizza", "donut", "cake", "chair",
   "couch", "potted plant", "bed", "dining table", "toilet", "tv",
   "laptop", "mouse", "remote", "keyboard", "cell phone", "microwave",
   "oven", "toaster", "sink", "refrigerator", "book", "clock", "vase",
   "scissors", "teddy bear", "hair drier", "toothbrush"]

structure Prediction where
  score : ℚ
  classIndex : ℕ
  boxX : ℚ
  boxY : ℚ
  boxW : ℚ
  boxH : ℚ
deriving DecidableEq, Repr

structure DetectedObject where
  id : String
  name : String
  confidence : ℚ
  boxX : ℚ
  boxY : ℚ
  boxW : ℚ
  boxH : ℚ
  distance : ℚ
deriving DecidableEq, Repr

/-- Translation of ObjectDetectionService.estimateDistance:
Math.round ((1 - confidence) * 5 * 10) / 10. -/
def estimateDistance (confidence : ℚ) : ℚ :=
  (jsRound ((1 - confidence) * 5 * 10) : ℚ) / 10

/-- The result-processing loop of processImage, with i the loop index:
keep a prediction when its score is strictly above the hardcoded 0.5 AND
its class index addresses the label table; the emitted id is the label
concatenated with a hyphen and Date.now at that iteration. -/
def processImageGo (now : ℕ → ℕ) (i : ℕ) :
    List Prediction → List DetectedObject
  | [] => []
  | p :: rest =>
      if mkRat 1 2 < p.score ∧ p.classIndex < COCO_LABELS.length then
        { id := COCO_LABELS.getD p.classIndex "" ++ "-" ++ toString (now i),
          name := COCO_LABELS.getD p.classIndex "",
          confidence := p.score,
          boxX := p.boxX, boxY := p.boxY, boxW := p.boxW, boxH := p.boxH,
          distance := estimateDistance p.score } :: processImageGo now (i + 1) rest
      else processImageGo now (i + 1) rest

/-- Translation of ObjectDetectionService.processImage applied to the
model output.  Note the source uses neither the configured
confidenceThreshold nor maxDetections here: the 0.5 bound is hardcoded
and no cap is applied. -/
def processImage (now : ℕ → ℕ) (preds : List Prediction) :
    List DetectedObject :=
  processImageGo now 0 preds

/-- Follows the words of the spec for comparison (filter predictions by
confidence at least the configured threshold, then cap to maxDetections);
to be diffed against processImage. -/
def specFilterCap (threshold : ℚ) (maxDetections : ℕ)
    (preds : List Prediction) : List Prediction :=
  (preds.filter (fun p => threshold ≤ p.score)).take maxDetections

def cePredA : List Prediction := [⟨mkRat 2 5, 0, 0, 0, 0, 0⟩]

def cePredB : List Prediction :=
  [⟨mkRat 9 10, 0, 0, 0, 0, 0⟩, ⟨mkRat 4 5, 0, 0, 0, 0, 0⟩]

def cePredC : List Prediction := [⟨mkRat 1 2, 0, 0, 0, 0, 0⟩]

/-- Counterexample for C6: the live pipeline disagrees with the claimed
filter-by-configured-threshold-and-cap semantics in three ways.  With
configured threshold 0.3, a 0.4-confidence prediction should be kept but
is dropped (the 0.5 bound is hardcoded); with maxDetections 1 and two
predictions above 0.5, both are emitted (no cap); and a prediction at
exactly 0.5 should be kept (confidence at least threshold) but is dropped
(the comparison is strict). -/
theorem detection_filter_counterexample :
    ((processImage (fun _ => 0) cePredA).map (fun o => o.confidence) = [] ∧
      (specFilterCap (mkRat 3 10) 5 cePredA).map (fun p => p.score) =
        [mkRat 2 5]) ∧
    ((processImage (fun _ => 0) cePredB).length = 2 ∧
      (specFilterCap (mkRat 1 2) 1 cePredB).length = 1) ∧
    ((processImage (fun _ => 0) cePredC).map (fun o => o.confidence) = [] ∧
      (specFilterCap (mkRat 1 2) 5 cePredC).map (fun p => p.score) =
        [mkRat 1 2]) := by
  refine ⟨⟨?_, ?_⟩, ⟨?_, ?_⟩, ⟨?_, ?_⟩⟩ <;> decide

theorem processImageGo_filter (now : ℕ → ℕ) :
    ∀ (preds : List Prediction) (i : ℕ),
      (processImageGo now i preds).map (fun o => (o.name, o.confidence)) =
        (preds.filter (fun p => decide (mkRat 1 2 < p.score) &&
            decide (p.classIndex < COCO_LABELS.length))).map
          (fun p => (COCO_LABELS.getD p.classIndex "", p.score))
  | [], _ => rfl
  | p :: rest, i => by
      by_cases hc : mkRat 1 2 < p.score ∧ p.classIndex < COCO_LABELS.length
      · rw [processImageGo, if_pos hc]
        simp only [List.map_cons, List.filter_cons,
          processImageGo_filter now rest (i + 1), hc.1, hc.2, decide_True,
          Bool.and_self, if_true]
      · rw [processImageGo, if_neg hc]
        rw [List.filter_cons]
        have hb : (decide (mkRat 1 2 < p.score) &&
            decide (p.classIndex < COCO_LABELS.length)) = false := by
          rcases Decidable.not_and_iff_or_not.mp hc with h | h <;> simp [h]
        rw [hb]
        simp only [Bool.false_eq_true, if_false]
        exact processImageGo_filter now rest (i + 1)

/-- C6 as amended.  The emitted batch contains exactly the predictions
whose confidence is strictly greater than the hardcoded 0.5 and whose
class index is within the 80-entry label table — the configured
confidenceThreshold and maxDetections are not applied in the live
processImage path and no cap is enforced.  In particular a batch with
confidences 0.9 and 0.4 yields exactly one emitted DetectedObject, the
0.9 one. -/
theorem detection_filter_amended :
    (∀ (now : ℕ → ℕ) (preds : List Prediction),
      (processImage now preds).map (fun o => (o.name, o.confidence)) =
        (preds.filter (fun p => decide (mkRat 1 2 < p.score) &&
            decide (p.classIndex < COCO_LABELS.length))).map
          (fun p => (COCO_LABELS.getD p.classIndex "", p.score))) ∧
    (processImage (fun _ => 0)
        [⟨mkRat 9 10, 0, 0, 0, 0, 0⟩, ⟨mkRat 2 5, 0, 0, 0, 0, 0⟩]).map
      (fun o => o.confidence) = [mkRat 9 10] := by
  constructor
  · intro now preds
    exact processImageGo_filter now preds 0
  · decide

structure FrameState where
  lastFrameTime : ℕ
  inflight : List ℕ
  cycles : ℕ
  failures : ℕ
deriving DecidableEq, Repr

/-- The minimum time between frames of the source (this.frameInterval). -/
def frameInterval : ℕ := 1000

/-- A detection-timer trigger of the detectFrame closure at time t.  The
guard reads this.lastFrameTime synchronously and returns at once (skipped,
not queued) when less than frameInterval has elapsed since the value it
sees; otherwise the closure starts a capture plus inference cycle.  The
closure only writes this.lastFrameTime = currentTime after its two awaited
calls (takePicture, processImage) complete, so the captured currentTime is
queued in inflight as a pending write rather than applied here — timers
keep firing while that work is suspended, and a concurrent trigger
compares against the stale lastFrameTime. -/
def trigger (t : ℕ) (s : FrameState) : FrameState :=
  if t - s.lastFrameTime < frameInterval then s
  else { s with cycles := s.cycles + 1, inflight := s.inflight ++ [t] }

/-- Completion of the oldest in-flight cycle: on success the deferred
this.lastFrameTime = currentTime write finally runs; on a failed capture
the closure throws before that write, so only the error handler runs and
lastFrameTime is left untouched.  Cycles complete oldest first. -/
def finish (ok : Bool) (s : FrameState) : FrameState :=
  match s.inflight with
  | [] => s
  | t :: rest =>
      if ok then { s with inflight := rest, lastFrameTime := t }
      else { s with inflight := rest, failures := s.failures + 1 }

/-- Translation of the initialization of startDetectionProcess: it sets
lastFrameTime to Date.now before the immediate first detectFrame call
(which the floor then skips), with no cycle in flight. -/
def startDetectionProcess (t0 : ℕ) : FrameState := ⟨t0, [], 0, 0⟩

/-- Counterexample for C7: from a fresh pipeline (lastFrameTime 0), a
trigger at 1000 ms starts a cycle whose deferred lastFrameTime write has
not yet run when a second trigger fires at 1200 ms; the second trigger
compares 1200 against the stale 0, passes the 1000 ms floor, and starts a
second capture plus inference cycle — two triggers 200 ms apart perform
two cycles, not exactly one. -/
theorem interframe_floor_counterexample :
    (trigger 1200 (trigger 1000 (startDetectionProcess 0))).cycles = 2 ∧
    (trigger 1200 (trigger 1000 (startDetectionProcess 0))).inflight =
      [1000, 1200] := by
  refine ⟨?_, ?_⟩ <;> decide

/-- C7 as amended.  When no cycle is in flight at the first trigger and
the first cycle (with its deferred lastFrameTime write) completes before
the second trigger fires, two triggers less than the inter-frame floor
apart perform exactly one capture plus inference cycle: the second trigger
is skipped outright, leaving the state unchanged (skipped, not queued).
But when the second trigger fires while the first cycle is still in
flight, its guard compares against the stale lastFrameTime and a second
cycle is started. -/
theorem interframe_floor_amended (s : FrameState) (t1 t2 : ℕ)
    (hq : s.inflight = [])
    (h1 : s.lastFrameTime + frameInterval ≤ t1)
    (h2 : t1 ≤ t2) (h3 : t2 < t1 + frameInterval) :
    (trigger t1 s).cycles = s.cycles + 1 ∧
    trigger t2 (finish true (trigger t1 s)) = finish true (trigger t1 s) ∧
    (trigger t2 (finish true (trigger t1 s))).cycles = s.cycles + 1 ∧
    (trigger t2 (trigger t1 s)).cycles = s.cycles + 2 := by
  have hf : frameInterval = 1000 := rfl
  have e1 : trigger t1 s =
      { s with cycles := s.cycles + 1, inflight := s.inflight ++ [t1] } := by
    unfold trigger
    rw [if_neg (by rw [hf] at h1 ⊢; omega)]
  have e2 : finish true (trigger t1 s) =
      { s with cycles := s.cycles + 1, inflight := [],
               lastFrameTime := t1 } := by
    rw [e1, hq]
    rfl
  have c2 : trigger t2 (finish true (trigger t1 s)) =
      finish true (trigger t1 s) := by
    rw [e2]
    unfold trigger
    rw [if_pos (by show t2 - t1 < frameInterval; rw [hf]; omega)]
  refine ⟨by rw [e1], c2, by rw [c2, e2], ?_⟩
  have hg : ¬(t2 - s.lastFrameTime < frameInterval) := by
    rw [hf]
    rw [hf] at h1
    omega
  rw [e1]
  unfold trigger
  rw [if_neg hg]

/-- Witness for the amended C7 at the concrete fresh pipeline with
triggers at 1000 ms and 1200 ms: one cycle when the first completes
first, two cycles when the first is still in flight. -/
theorem interframe_floor_amended_witness :
    (trigger 1000 (startDetectionProcess 0)).cycles = 1 ∧
    trigger 1200 (finish true (trigger 1000 (startDetectionProcess 0))) =
      finish true (trigger 1000 (startDetectionProcess 0)) ∧
    (trigger 1200 (finish true (trigger 1000 (startDetectionProcess 0)))).cycles
      = 1 ∧
    (trigger 1200 (trigger 1000 (startDetectionProcess 0))).cycles = 2 := by
  have h := interframe_floor_amended (startDetectionProcess 0) 1000 1200
    rfl (by decide) (by decide) (by decide)
  exact ⟨h.1, h.2.1, h.2.2.1, h.2.2.2⟩

def c8now : ℕ → ℕ := fun _ => 123

def c8preds : List Prediction :=
  [⟨mkRat 9 10, 0, 0, 0, 0, 0⟩, ⟨mkRat 4 5, 0, 0, 0, 0, 0⟩]

/-- C8 (code bug).  Two detections of the same label pushed within the
same millisecond (Date.now returning 123 for both loop iterations) receive
the identical id person-123: the ids of one emitted batch are not pairwise
distinct. -/
theorem duplicate_ids_same_batch :
    (processImage c8now c8preds).length = 2 ∧
    (processImage c8now c8preds).map (fun o => o.id) =
      ["person-123", "person-123"] ∧
    ¬ ((processImage c8now c8preds).map (fun o => o.id)).Nodup := by
  refine ⟨?_, ?_, ?_⟩ <;> decide

end DetM
